import Mathlib

/-
  Verification development for the Washington EV report pipeline
  (src/hello.py): value model, geometry decoder, dataset normalizer
  and chart builders, with theorems about the properties of each.
-/

set_option maxHeartbeats 1000000
set_option maxRecDepth 20000

namespace EVReport

/-- Model of a Python/NumPy floating-point value as it occurs in the
dataset: NaN, the two signed infinities, or a finite value represented
exactly as a decimal m / 10 ^ e with integer mantissa m and scale e. -/
inductive PFloat where
  | nan : PFloat
  | inf : PFloat
  | neginf : PFloat
  | fin (m : ℤ) (e : ℕ) : PFloat
deriving DecidableEq, Repr

/-- Model of a pandas cell: the missing marker (None / NaN object), a
string, or a numeric value. -/
inductive Cell where
  | missing : Cell
  | str (s : String) : Cell
  | num (x : PFloat) : Cell
deriving DecidableEq, Repr

/-- pandas pd.isna on a single cell: true on the missing marker and on a
float NaN, false otherwise. -/
def isna : Cell → Bool
  | Cell.missing => true
  | Cell.num PFloat.nan => true
  | _ => false

/-- Python str.strip / str.split whitespace class (ASCII part). -/
def isWs (c : Char) : Bool :=
  c == ' ' || c == '\t' || c == '\n' || c == '\r' || c == '\x0b' || c == '\x0c'

/-- Python str.strip on a character list: drop whitespace from both ends. -/
def stripChars (l : List Char) : List Char :=
  ((l.dropWhile isWs).reverse.dropWhile isWs).reverse

/-- Accumulator worker for tokens: cur holds the characters of the token
in progress, in reverse. -/
def tokensAux (cur : List Char) : List Char → List (List Char)
  | [] => if cur = [] then [] else [cur.reverse]
  | c :: cs =>
    if isWs c then
      if cur = [] then tokensAux [] cs else cur.reverse :: tokensAux [] cs
    else tokensAux (c :: cur) cs

/-- Python str.split() with no separator: split on runs of whitespace,
discarding empty pieces. -/
def tokens (l : List Char) : List (List Char) := tokensAux [] l

/-- The literal character prefix POINT-space-open-paren checked by
parse_point via val.startswith. -/
def pointTag : List Char := ['P', 'O', 'I', 'N', 'T', ' ', '(']

/-- Shallow embedding of parse_point (src/hello.py:23-35), parameterised
by the float-literal parser pf standing for the Python float builtin.
A missing value returns the sentinel (pd.isna branch); a numeric value has
no .strip attribute, so the AttributeError is caught and the sentinel is
returned; a string is stripped, checked for the POINT prefix and the
closing-paren suffix, split into whitespace-separated tokens, and the two
tokens are parsed as floats; every failure path (including a float() parse
error, which raises and is caught) returns the sentinel (NaN, NaN). -/
def parse_point (pf : String → Option PFloat) : Cell → PFloat × PFloat
  | Cell.missing => (PFloat.nan, PFloat.nan)
  | Cell.num _ => (PFloat.nan, PFloat.nan)
  | Cell.str s =>
    let t := stripChars s.data
    if t.take 7 = pointTag ∧ t.getLast? = some ')' then
      match tokens ((t.drop 7).dropLast) with
      | [a, b] =>
        match pf (String.mk a), pf (String.mk b) with
        | some x, some y => (x, y)
        | _, _ => (PFloat.nan, PFloat.nan)
      | _ => (PFloat.nan, PFloat.nan)
    else (PFloat.nan, PFloat.nan)

/-- The set of inputs on which parse_point succeeds: a string cell whose
stripped text has the POINT prefix and the closing-paren suffix, whose
interior splits into exactly two whitespace-separated tokens, both of
which parse as float literals. -/
def goodShape (pf : String → Option PFloat) : Cell → Bool
  | Cell.str s =>
    let t := stripChars s.data
    decide (t.take 7 = pointTag) && decide (t.getLast? = some ')') &&
      (match tokens ((t.drop 7).dropLast) with
       | [a, b] => (pf (String.mk a)).isSome && (pf (String.mk b)).isSome
       | _ => false)
  | _ => false

/-- Digit run to a natural number. -/
def digitsNat (l : List Char) : ℕ := l.foldl (fun a c => a * 10 + (c.toNat - 48)) 0

/-- Model of the Python float(str) builtin on the literal forms relevant
to this dataset: optional surrounding whitespace, optional sign, the
special words nan / inf / infinity (case-insensitive), or a decimal
literal with an optional fractional part. Exponent notation and digit
underscores are not modelled; the theorems that quantify over the parser
do not depend on this choice. -/
def pyFloat (s : String) : Option PFloat :=
  let t := stripChars s.data
  let sgnNeg : Bool := match t with | '-' :: _ => true | _ => false
  let u : List Char := match t with
    | '+' :: r => r
    | '-' :: r => r
    | r => r
  let lo := u.map Char.toLower
  if lo = ['n', 'a', 'n'] then some PFloat.nan
  else if lo = ['i', 'n', 'f'] ∨ lo = ['i', 'n', 'f', 'i', 'n', 'i', 't', 'y'] then
    some (if sgnNeg then PFloat.neginf else PFloat.inf)
  else
    let ip := u.takeWhile Char.isDigit
    let rest := u.dropWhile Char.isDigit
    let sgn : ℤ := if sgnNeg then -1 else 1
    match rest with
    | [] => if ip ≠ [] then some (PFloat.fin (sgn * digitsNat ip) 0) else none
    | '.' :: fr =>
      if fr.all Char.isDigit ∧ (ip ≠ [] ∨ fr ≠ []) then
        some (PFloat.fin (sgn * (digitsNat ip * 10 ^ fr.length + digitsNat fr)) fr.length)
      else none
    | _ => none

/-- A pandas DataFrame: a list of column names and a list of rows, each
row a list of cells aligned positionally with the column names. -/
structure DF where
  cols : List String
  rows : List (List Cell)
deriving DecidableEq, Repr

/-- Well-formedness: every row has exactly one cell per column. -/
def Wf (df : DF) : Prop := ∀ r ∈ df.rows, r.length = df.cols.length

instance (df : DF) : Decidable (Wf df) :=
  inferInstanceAs (Decidable (∀ r ∈ df.rows, r.length = df.cols.length))

/-- The cell of a row under a given column name (first occurrence);
the missing marker when the column does not exist or the row is short. -/
def cellAt : List String → List Cell → String → Cell
  | c :: cs, x :: xs, col => if c = col then x else cellAt cs xs col
  | _, _, _ => Cell.missing

/-- Column extraction df[col]: the list of that column's cells, one per
row. -/
def getColD (df : DF) (col : String) : List Cell :=
  df.rows.map (fun r => cellAt df.cols r col)

/-- The fixed source-to-canonical column renaming map of
load_and_prepare_data (src/hello.py:42-60). -/
def column_map : List (String × String) := [
  ("VIN (1-10)", "vin_1_10"),
  ("County", "county"),
  ("City", "city"),
  ("State", "state"),
  ("Postal Code", "zip_code"),
  ("Model Year", "model_year"),
  ("Make", "make"),
  ("Model", "model"),
  ("Electric Vehicle Type", "ev_type"),
  ("Clean Alternative Fuel Vehicle (CAFV) Eligibility", "cafv_type"),
  ("Electric Range", "electric_range"),
  ("Base MSRP", "base_msrp"),
  ("Legislative District", "legislative_district"),
  ("DOL Vehicle ID", "dol_vehicle_id"),
  ("Vehicle Location", "geocoded_column"),
  ("Electric Utility", "electric_utility"),
  ("2020 Census Tract", "_2020_census_tract")]

/-- df.rename with the column_map restricted to the columns present in
df (the dict comprehension at src/hello.py:61): a label found as a key of
the restricted map is replaced by its value, any other label is kept. -/
def appRen (present : List String) (c : String) : String :=
  ((column_map.filter (fun kv => decide (kv.1 ∈ present))).lookup c).getD c

/-- The rename step of load_and_prepare_data. -/
def renameStep (df : DF) : DF := ⟨df.cols.map (appRen df.cols), df.rows⟩

/-- pandas pd.to_numeric(−, errors=coerce) on one cell: numbers pass
through, a string is parsed as a float and becomes NaN when unparsable,
a missing value stays missing (NaN). -/
def toNumCell (pf : String → Option PFloat) : Cell → Cell
  | Cell.missing => Cell.num PFloat.nan
  | Cell.num x => Cell.num x
  | Cell.str s =>
    match pf s with
    | some x => Cell.num x
    | none => Cell.num PFloat.nan

/-- The three columns coerced to numbers by load_and_prepare_data
(src/hello.py:62-64). -/
def numCols : List String := ["electric_range", "base_msrp", "model_year"]

/-- Numeric coercion applied along a row: a cell is coerced exactly when
its column is one of the three numeric columns. -/
def coerceRow (pf : String → Option PFloat) : List String → List Cell → List Cell
  | c :: cs, x :: xs => (if c ∈ numCols then toNumCell pf x else x) :: coerceRow pf cs xs
  | _, r => r

/-- The numeric-coercion step of load_and_prepare_data. -/
def coerceNumeric (pf : String → Option PFloat) (df : DF) : DF :=
  ⟨df.cols, df.rows.map (coerceRow pf df.cols)⟩

/-- Overwrite the first cell of the named column in a row. -/
def setCellRow : List String → List Cell → String → Cell → List Cell
  | c :: cs, x :: xs, col, v => if c = col then v :: xs else x :: setCellRow cs xs col v
  | _, r, _, _ => r

/-- pandas column assignment df[col] = vals: overwrite the column when it
exists, append it otherwise. -/
def setOrAppendCol (df : DF) (col : String) (vals : List Cell) : DF :=
  if col ∈ df.cols then
    ⟨df.cols, (df.rows.zip vals).map (fun p => setCellRow df.cols p.1 col p.2)⟩
  else
    ⟨df.cols ++ [col], (df.rows.zip vals).map (fun p => p.1 ++ [p.2])⟩

/-- The geometry-expansion step of load_and_prepare_data
(src/hello.py:66-69): when geocoded_column is present, decode every row
with parse_point and assign the longitude and latitude columns from the
two components. -/
def addCoords (pf : String → Option PFloat) (df : DF) : DF :=
  if "geocoded_column" ∈ df.cols then
    let coords := (getColD df "geocoded_column").map (parse_point pf)
    setOrAppendCol
      (setOrAppendCol df "longitude" (coords.map (fun p => Cell.num p.1)))
      "latitude" (coords.map (fun p => Cell.num p.2))
  else df

/-- The full normalization pipeline of load_and_prepare_data applied to
an already-loaded raw frame: rename, coerce the numeric columns, expand
the geometry column. -/
def normalize (pf : String → Option PFloat) (df : DF) : DF :=
  addCoords pf (coerceNumeric pf (renameStep df))

/-- Joint presence of the longitude/latitude columns: for every row,
the longitude cell is missing exactly when the latitude cell is. -/
def coordsPaired (df : DF) : Bool :=
  ((getColD df "longitude").zip (getColD df "latitude")).all
    (fun p => isna p.1 == isna p.2)

/-- Append one row at the end of a frame. -/
def appendRow (df : DF) (r : List Cell) : DF := ⟨df.cols, df.rows ++ [r]⟩

/-- pandas df.dropna(subset=cs): keep the rows in which none of the named
columns is missing. -/
def dropna (df : DF) (cs : List String) : DF :=
  ⟨df.cols, df.rows.filter (fun r => cs.all (fun c => !(isna (cellAt df.cols r c))))⟩

/-- First-occurrence deduplication with an explicit seen accumulator. -/
def uniqAux {α : Type} [DecidableEq α] (seen : List α) : List α → List α
  | [] => []
  | x :: xs => if x ∈ seen then uniqAux seen xs else x :: uniqAux (x :: seen) xs

/-- Insertion into a list ordered by the relation r (r x y true when x
may be placed before y). -/
def insertOrd {α : Type} (r : α → α → Bool) (x : α) : List α → List α
  | [] => [x]
  | y :: ys => if r x y then x :: y :: ys else y :: insertOrd r x ys

/-- Insertion sort by the relation r. -/
def sortOrd {α : Type} (r : α → α → Bool) : List α → List α
  | [] => []
  | x :: xs => insertOrd r x (sortOrd r xs)

/-- Descending-count comparison used by the top-N rankings. -/
def cntDesc {α : Type} (a b : α × ℕ) : Bool := decide (b.2 ≤ a.2)

/-- pandas Series.value_counts(): count each distinct non-missing value
and order the result by descending count. -/
def valueCounts (l : List Cell) : List (Cell × ℕ) :=
  let nm := l.filter (fun c => !(isna c))
  sortOrd cntDesc ((uniqAux [] nm).map (fun v => (v, nm.count v)))

/-- A deterministic total comparison on modelled floats: neginf, finite
values by exact decimal value, inf, NaN last (pandas sorts NaN last). -/
def pfLe : PFloat → PFloat → Bool
  | PFloat.neginf, _ => true
  | _, PFloat.nan => true
  | PFloat.nan, _ => false
  | _, PFloat.neginf => false
  | PFloat.inf, PFloat.inf => true
  | PFloat.inf, PFloat.fin _ _ => false
  | PFloat.fin _ _, PFloat.inf => true
  | PFloat.fin m e, PFloat.fin n f => decide (m * (10 : ℤ) ^ f ≤ n * (10 : ℤ) ^ e)

/-- A deterministic total comparison on cells used to model pandas value
sorting (missing first, then numbers, then strings). -/
def cellLe : Cell → Cell → Bool
  | Cell.missing, _ => true
  | _, Cell.missing => false
  | Cell.num x, Cell.num y => pfLe x y
  | Cell.num _, Cell.str _ => true
  | Cell.str _, Cell.num _ => false
  | Cell.str s, Cell.str t => decide (s ≤ t)

/-- Lexicographic comparison on cell pairs, modelling the ascending
group-key order of pandas groupby. -/
def pairCellLe (a b : Cell × Cell) : Bool :=
  if a.1 = b.1 then cellLe a.2 b.2 else cellLe a.1 b.1

/-- The abbreviation glossary of abbr_explain (src/hello.py:9-21). -/
def abbr : List (String × String) := [
  ("BEV", "Battery Electric Vehicle"),
  ("PHEV", "Plug-in Hybrid Electric Vehicle"),
  ("MSRP", "Manufacturer\x27s Suggested Retail Price"),
  ("CAFV", "Clean Alternative Fuel Vehicle"),
  ("VIN", "Vehicle Identification Number"),
  ("DOL", "Department of Licensing"),
  ("EV", "Electric Vehicle"),
  ("WA", "Washington")]

/-- abbr_explain: newline-joined glossary lines for the requested keys,
skipping unknown keys. -/
def abbr_explain (keys : List String) : String :=
  String.intercalate "\n"
    ((keys.filter (fun k => (abbr.lookup k).isSome)).map
      (fun k => "**" ++ k ++ "**: " ++ ((abbr.lookup k).getD "")))

/-- One rendering-layer emission: a markdown text block or a chart
specification carrying the data handed to plotly express. -/
inductive Out where
  | txt (s : String)
  | chartMap (rows : List (List Cell))
  | chartBarPairs (data : List ((Cell × Cell) × ℕ))
  | chartPie (data : List (Cell × ℕ))
  | chartHist (vals : List Cell)
  | chartBar (data : List (Cell × ℕ))
  | chartBox (rows : List (List Cell))
  | chartLine (data : List (Cell × ℕ))
deriving DecidableEq, Repr

deriving instance DecidableEq for Except

/-- True exactly on successful (non-raising) builder results. -/
def okB {ε α : Type} : Except ε α → Bool
  | Except.ok _ => true
  | Except.error _ => false

/-- Linear congruential step standing in for the pandas random engine;
the sampling model is deterministic in the seed, as pandas sampling is
for a fixed random_state. -/
def lcg (s : ℕ) : ℕ := (s * 1103515245 + 12345) % 2147483648

/-- Model of df.sample(n=k, random_state=s): draw k rows without
replacement, the pseudorandom choice driven by the seed. -/
def sampleTake (s : ℕ) : ℕ → List (List Cell) → List (List Cell)
  | 0, _ => []
  | _ + 1, [] => []
  | n + 1, x :: xs =>
    let l := x :: xs
    let i := s % l.length
    l.getD i [] :: sampleTake (lcg s) n (l.eraseIdx i)

/-- The map builder's working set: rows with both coordinates present
(src/hello.py:76). -/
def map_working (df : DF) : DF := dropna df ["longitude", "latitude"]

/-- The map builder's charted rows: a seeded sample of at most 5000
working rows (src/hello.py:81). -/
def map_sample (df : DF) : List (List Cell) :=
  sampleTake 42 (min 5000 (map_working df).rows.length) (map_working df).rows

def map_heading : String := "## Washington State EV Registration Map"

def map_caption : String :=
  "**How to read:** This map shows the locations of registered EVs across Washington State. Each point represents a registered EV.\n**Insight:** Clusters reveal urban hotspots and geographic trends in EV adoption.\n"
  ++ abbr_explain ["EV", "WA"]

/-- The columns demanded by the dict-form hover_data of the map chart
(src/hello.py:85); unlike hover_name, they are not guarded by a
column-existence check. -/
def hoverCols : List String := ["make", "model", "model_year", "county"]

/-- plot_ev_map (src/hello.py:73-97). With a non-empty coordinate
working set, px.scatter_mapbox validates the dict-form hover_data keys
(make, model, model_year, county) against the sampled frame's columns
(equal to the input frame's columns) and raises a ValueError when one is
absent; this uncaught exception is modelled as an error result (the
heading and caption already handed to the renderer before the raise are
not tracked by the return value). hover_name is guarded in the source
and cannot raise. -/
def plot_ev_map (df : DF) : Except String (List Out) :=
  if "longitude" ∈ df.cols ∧ "latitude" ∈ df.cols then
    if (map_working df).rows ≠ [] then
      if ∀ c ∈ hoverCols, c ∈ df.cols then
        Except.ok [Out.txt map_heading, Out.txt map_caption, Out.chartMap (map_sample df)]
      else
        Except.error "ValueError"
    else
      Except.ok [Out.txt "No valid geolocation data available for mapping EV registrations."]
  else
    Except.ok [Out.txt "Geocoded location data not available for mapping."]

/-- The grouped (make, model) sizes of plot_top_makes_models: group keys
with a missing component are dropped, keys are listed in ascending key
order (pandas groupby sorts keys), each with its row count. -/
def groupMakeModel (df : DF) : List ((Cell × Cell) × ℕ) :=
  let pairs := ((getColD df "make").zip (getColD df "model")).filter
    (fun p => !(isna p.1) && !(isna p.2))
  sortOrd (fun a b => pairCellLe a.1 b.1)
    ((uniqAux [] pairs).map (fun v => (v, pairs.count v)))

/-- The charted working set of plot_top_makes_models: groups sorted by
descending count, first 15 (src/hello.py:101). -/
def top_models_data (df : DF) : List ((Cell × Cell) × ℕ) :=
  (sortOrd cntDesc (groupMakeModel df)).take 15

def top_models_heading : String := "## Top Makes and Models"

def top_models_caption : String :=
  "**How to read:** This bar chart shows the most common electric vehicle (EV) makes and models registered in Washington (WA).\n**Insight:** It reveals which brands and models are most popular among EV owners.\n"
  ++ abbr_explain ["EV", "WA"]

/-- plot_top_makes_models (src/hello.py:99-116). The groupby on make and
model is performed before any column check, so a frame lacking either
column makes pandas raise a KeyError, modelled as an error result. -/
def plot_top_makes_models (df : DF) : Except String (List Out) :=
  if "make" ∈ df.cols ∧ "model" ∈ df.cols then
    if top_models_data df ≠ [] then
      Except.ok [Out.txt top_models_heading, Out.txt top_models_caption,
        Out.chartBarPairs (top_models_data df)]
    else
      Except.ok [Out.txt "No data available for top makes and models."]
  else
    Except.error "KeyError"

/-- The ev_type value counts of plot_bev_phev_share (src/hello.py:121). -/
def ev_type_counts (df : DF) : List (Cell × ℕ) := valueCounts (getColD df "ev_type")

def bev_heading : String := "## BEV vs PHEV Share"

def bev_caption : String :=
  "**How to read:** This pie chart shows the proportion of Battery Electric Vehicles (BEVs) vs Plug-in Hybrid Electric Vehicles (PHEVs) in the state.\n**Insight:** It highlights the market split between fully electric and plug-in hybrid vehicles.\n"
  ++ abbr_explain ["BEV", "PHEV", "EV"]

/-- plot_bev_phev_share (src/hello.py:118-137). -/
def plot_bev_phev_share (df : DF) : Except String (List Out) :=
  if "ev_type" ∈ df.cols then
    if ev_type_counts df ≠ [] then
      Except.ok [Out.txt bev_heading, Out.txt bev_caption, Out.chartPie (ev_type_counts df)]
    else
      Except.ok [Out.txt "No data available for BEV vs PHEV share."]
  else
    Except.ok [Out.txt "EV type data not available."]

def range_heading : String := "## Electric Range Distribution"

def range_caption : String :=
  "**How to read:** This histogram shows how far EVs can travel on electric power alone.\n**Insight:** It reveals the most common electric ranges and the spread of EV capabilities.\n"
  ++ abbr_explain ["EV"]

/-- plot_electric_range_distribution (src/hello.py:139-157). The heading
and caption are emitted before the empty-working-set check. -/
def plot_electric_range_distribution (df : DF) : Except String (List Out) :=
  if "electric_range" ∈ df.cols then
    Except.ok ([Out.txt range_heading, Out.txt range_caption] ++
      (if (dropna df ["electric_range"]).rows ≠ [] then
        [Out.chartHist (getColD (dropna df ["electric_range"]) "electric_range")]
      else
        [Out.txt "No data available for electric range distribution."]))
  else
    Except.ok [Out.txt "Electric range data not available."]

/-- The city value counts of plot_top_cities (src/hello.py:162). -/
def top_cities_counts (df : DF) : List (Cell × ℕ) := valueCounts (getColD df "city")

/-- The charted working set of plot_top_cities: first 15 value counts
(src/hello.py:168). -/
def top_cities_data (df : DF) : List (Cell × ℕ) := (top_cities_counts df).take 15

def cities_heading : String := "## Top Cities for EVs"

def cities_caption : String :=
  "**How to read:** This bar chart shows which cities have the most registered EVs.\n**Insight:** It highlights geographic hotspots for EV adoption.\n"
  ++ abbr_explain ["EV"]

/-- plot_top_cities (src/hello.py:159-178). -/
def plot_top_cities (df : DF) : Except String (List Out) :=
  if "city" ∈ df.cols then
    if top_cities_counts df ≠ [] then
      Except.ok [Out.txt cities_heading, Out.txt cities_caption,
        Out.chartBar (top_cities_data df)]
    else
      Except.ok [Out.txt "No data available for top cities."]
  else
    Except.ok [Out.txt "City data not available."]

/-- The county value counts of plot_top_counties (src/hello.py:183). -/
def top_counties_counts (df : DF) : List (Cell × ℕ) := valueCounts (getColD df "county")

/-- The charted working set of plot_top_counties: first 15 value counts
(src/hello.py:189). -/
def top_counties_data (df : DF) : List (Cell × ℕ) := (top_counties_counts df).take 15

def counties_heading : String := "## Top Counties for EVs"

def counties_caption : String :=
  "**How to read:** This bar chart shows which counties have the most registered EVs.\n**Insight:** It highlights geographic hotspots for EV adoption.\n"
  ++ abbr_explain ["EV"]

/-- plot_top_counties (src/hello.py:180-199). -/
def plot_top_counties (df : DF) : Except String (List Out) :=
  if "county" ∈ df.cols then
    if top_counties_counts df ≠ [] then
      Except.ok [Out.txt counties_heading, Out.txt counties_caption,
        Out.chartBar (top_counties_data df)]
    else
      Except.ok [Out.txt "No data available for top counties."]
  else
    Except.ok [Out.txt "County data not available."]

def msrp_heading : String := "## MSRP by EV Type"

def msrp_caption : String :=
  "**How to read:** This boxplot shows the distribution of Manufacturer\x27s Suggested Retail Price (MSRP) for BEVs and PHEVs.\n**Insight:** It reveals price differences between fully electric and plug-in hybrid vehicles.\n"
  ++ abbr_explain ["MSRP", "BEV", "PHEV"]

/-- plot_msrp_by_ev_type (src/hello.py:201-220). The heading and caption
are emitted before the empty-working-set check. -/
def plot_msrp_by_ev_type (df : DF) : Except String (List Out) :=
  if "base_msrp" ∈ df.cols ∧ "ev_type" ∈ df.cols then
    Except.ok ([Out.txt msrp_heading, Out.txt msrp_caption] ++
      (if (dropna df ["base_msrp", "ev_type"]).rows ≠ [] then
        [Out.chartBox (dropna df ["base_msrp", "ev_type"]).rows]
      else
        [Out.txt "No MSRP data available for BEV or PHEV vehicles."]))
  else
    Except.ok [Out.txt "MSRP or EV type data not available."]

/-- The yearly working set of plot_yearly_trend: model_year value counts
re-sorted by ascending year (src/hello.py:227-229). -/
def year_trend_data (df : DF) : List (Cell × ℕ) :=
  sortOrd (fun a b => cellLe a.1 b.1) (valueCounts (getColD df "model_year"))

def yearly_heading : String := "## Yearly Trend of EV Registrations"

def yearly_caption : String :=
  "**How to read:** This line chart shows how many EVs were registered each year.\n**Insight:** It reveals growth trends in EV adoption over time.\n"
  ++ abbr_explain ["EV"]

/-- True on a numeric cell. -/
def isNumCell : Cell → Bool
  | Cell.num _ => true
  | _ => false

/-- True on a string cell. -/
def isStrCell : Cell → Bool
  | Cell.str _ => true
  | _ => false

/-- Whether pandas can sort the distinct model_year keys of the yearly
working set: all numeric or all strings. Mixed string/number values are
not mutually comparable and Series.sort_values raises a TypeError
(missing values cannot appear among value_counts keys; a hypothetical
one is conservatively treated as unsortable). -/
def sortableKeys (l : List (Cell × ℕ)) : Bool :=
  (l.all fun p => isNumCell p.1) || (l.all fun p => isStrCell p.1)

/-- plot_yearly_trend (src/hello.py:222-243). The heading and caption
are emitted before the empty-working-set check. sort_values on a
model_year column whose distinct values mix strings and numbers raises
a TypeError (src/hello.py:229), modelled as an error result (the
heading and caption already handed to the renderer before the raise are
not tracked by the return value). -/
def plot_yearly_trend (df : DF) : Except String (List Out) :=
  if "model_year" ∈ df.cols then
    if sortableKeys (valueCounts (getColD df "model_year")) then
      Except.ok ([Out.txt yearly_heading, Out.txt yearly_caption] ++
        (if year_trend_data df ≠ [] then
          [Out.chartLine (year_trend_data df)]
        else
          [Out.txt "No registration data available by model year."]))
    else
      Except.error "TypeError"
  else
    Except.ok [Out.txt "Model year data not available."]

/-! Helper lemmas. -/

theorem dropWhile_of_head_neg {p : Char → Bool} {l : List Char}
    (h : ∀ c, l.head? = some c → p c = false) : l.dropWhile p = l := by
  cases l with
  | nil => rfl
  | cons a as =>
    rw [List.dropWhile_cons, h a rfl]
    simp

theorem stripChars_eq_self (l : List Char)
    (h1 : ∀ c, l.head? = some c → isWs c = false)
    (h2 : ∀ c, l.getLast? = some c → isWs c = false) :
    stripChars l = l := by
  have hd : l.dropWhile isWs = l := dropWhile_of_head_neg h1
  have hrev : l.reverse.dropWhile isWs = l.reverse := by
    apply dropWhile_of_head_neg
    intro c hc
    exact h2 c (by rwa [List.head?_reverse] at hc)
  rw [stripChars, hd, hrev, List.reverse_reverse]

theorem tokensAux_nonws (w : List Char) (hw : ∀ c ∈ w, isWs c = false) :
    ∀ (cur rest : List Char), tokensAux cur (w ++ rest) = tokensAux (w.reverse ++ cur) rest := by
  induction w with
  | nil => intro cur rest; simp
  | cons c cs ih =>
    intro cur rest
    have hc : isWs c = false := hw c (by simp)
    have hcs : ∀ d ∈ cs, isWs d = false := fun d hd => hw d (by simp [hd])
    show tokensAux cur (c :: (cs ++ rest)) = _
    rw [tokensAux, hc]
    show tokensAux (c :: cur) (cs ++ rest) = _
    rw [ih hcs (c :: cur) rest]
    congr 1
    simp

theorem tokens_single (w : List Char) (h0 : w ≠ []) (hw : ∀ c ∈ w, isWs c = false) :
    tokens w = [w] := by
  have := tokensAux_nonws w hw [] []
  rw [List.append_nil, List.append_nil] at this
  rw [tokens, this, tokensAux]
  have : w.reverse ≠ [] := by simpa using h0
  rw [if_neg this, List.reverse_reverse]

theorem tokens_pair (w v : List Char) (hw0 : w ≠ []) (hv0 : v ≠ [])
    (hw : ∀ c ∈ w, isWs c = false) (hv : ∀ c ∈ v, isWs c = false) :
    tokens (w ++ ' ' :: v) = [w, v] := by
  rw [tokens, tokensAux_nonws w hw [] (' ' :: v), List.append_nil, tokensAux]
  have hws : isWs ' ' = true := by decide
  rw [hws]
  simp only [if_true]
  have : w.reverse ≠ [] := by simpa using hw0
  rw [if_neg this, List.reverse_reverse]
  show w :: tokens v = [w, v]
  rw [tokens_single v hv0 hv]

theorem string_mk_data (s : String) : String.mk s.data = s := rfl

/-! Claim theorems: geometry decoder. -/

/-- Claim C2: every input cell that is a missing marker, a non-string
value, or a string whose stripped text does not have the POINT prefix,
the closing-paren suffix, exactly two whitespace-separated tokens, and
two float-parseable tokens, makes parse_point return the missing-pair
sentinel (NaN, NaN); parse_point is total, so no exception escapes. -/
theorem parse_point_bad_shape (pf : String → Option PFloat) (v : Cell)
    (h : goodShape pf v = false) :
    parse_point pf v = (PFloat.nan, PFloat.nan) := by
  cases v with
  | missing => rfl
  | num x => rfl
  | str s =>
    simp only [goodShape] at h
    simp only [parse_point]
    by_cases hc : (stripChars s.data).take 7 = pointTag ∧
        (stripChars s.data).getLast? = some ')'
    · rw [if_pos hc]
      obtain ⟨hc1, hc2⟩ := hc
      simp only [hc1, hc2, decide_True, Bool.true_and] at h
      split
      · next a b heq =>
        rw [heq] at h
        cases hpa : pf (String.mk a) <;> cases hpb : pf (String.mk b) <;>
          simp [hpa, hpb] at h ⊢
      · rfl
    · rw [if_neg hc]

/-- Witness for C2 at a concrete malformed input. -/
theorem parse_point_bad_shape_witness :
    goodShape pyFloat (Cell.str "not a point") = false ∧
    parse_point pyFloat (Cell.str "not a point") = (PFloat.nan, PFloat.nan) :=
  ⟨by decide, parse_point_bad_shape pyFloat (Cell.str "not a point") (by decide)⟩

/-- Counterexample to claim C3: the input deviates from the bit-exact
one-space format (two spaces between the floats), yet parse_point does
not return the missing-pair sentinel — it parses the two floats. -/
theorem parse_point_two_spaces_accepted :
    parse_point pyFloat (Cell.str "POINT (1  2)") = (PFloat.fin 1 0, PFloat.fin 2 0) ∧
    (PFloat.fin 1 0, PFloat.fin 2 0) ≠ (PFloat.nan, PFloat.nan) := by
  exact ⟨by decide, by decide⟩

/-- Claim C3 as amended: on input of the canonical shape POINT, one
space, open paren, float, one space, float, close paren (tokens free of
whitespace), parse_point returns exactly the two parsed float values;
the code additionally tolerates surrounding whitespace and any
whitespace run between the two floats, as the counterexample shows. -/
theorem parse_point_valid (pf : String → Option PFloat) (a b : String) (x y : PFloat)
    (ha0 : a.data ≠ []) (hb0 : b.data ≠ [])
    (ha : ∀ c ∈ a.data, isWs c = false) (hb : ∀ c ∈ b.data, isWs c = false)
    (hpa : pf a = some x) (hpb : pf b = some y) :
    parse_point pf (Cell.str ("POINT (" ++ a ++ " " ++ b ++ ")")) = (x, y) := by
  have hdata : ("POINT (" ++ a ++ " " ++ b ++ ")").data =
      (pointTag ++ (a.data ++ ' ' :: b.data)) ++ [')'] := by
    simp only [String.data_append]
    show pointTag ++ a.data ++ [' '] ++ b.data ++ [')'] = _
    simp [List.append_assoc]
  have hstrip : stripChars ("POINT (" ++ a ++ " " ++ b ++ ")").data =
      (pointTag ++ (a.data ++ ' ' :: b.data)) ++ [')'] := by
    rw [hdata]
    apply stripChars_eq_self
    · intro c hc
      simp only [pointTag, List.cons_append, List.head?_cons] at hc
      cases hc
      decide
    · intro c hc
      rw [List.getLast?_concat] at hc
      cases hc
      decide
  simp only [parse_point, hstrip]
  have htake : ((pointTag ++ (a.data ++ ' ' :: b.data)) ++ [')']).take 7 = pointTag := by
    rw [List.append_assoc]
    have h7 : pointTag.length = 7 := rfl
    rw [← h7, List.take_left]
  have hlast : ((pointTag ++ (a.data ++ ' ' :: b.data)) ++ [')']).getLast? = some ')' :=
    List.getLast?_concat _
  rw [if_pos ⟨htake, hlast⟩]
  have hdrop : (((pointTag ++ (a.data ++ ' ' :: b.data)) ++ [')']).drop 7).dropLast
      = a.data ++ ' ' :: b.data := by
    rw [List.append_assoc]
    have h7 : pointTag.length = 7 := rfl
    rw [← h7, List.drop_left]
    have hre : a.data ++ ' ' :: b.data ++ [')'] = (a.data ++ ' ' :: b.data) ++ [')'] := by
      simp
    rw [hre, List.dropLast_concat]
  rw [hdrop, tokens_pair a.data b.data ha0 hb0 ha hb]
  show (match pf (String.mk a.data), pf (String.mk b.data) with
    | some x, some y => (x, y)
    | _, _ => (PFloat.nan, PFloat.nan)) = (x, y)
  rw [string_mk_data, string_mk_data, hpa, hpb]

/-- Witness for the amended C3 at the canonical example input. -/
theorem parse_point_valid_witness :
    parse_point pyFloat (Cell.str "POINT (-122.33 47.61)") =
      (PFloat.fin (-12233) 2, PFloat.fin 4761 2) := by
  have h := parse_point_valid pyFloat "-122.33" "47.61"
    (PFloat.fin (-12233) 2) (PFloat.fin 4761 2)
    (by decide) (by decide) (by decide) (by decide) (by decide) (by decide)
  exact h

/-! Lookup and rename lemmas. -/

theorem lookup_filter_mem {present : List String} {c : String} (hc : c ∈ present)
    (m : List (String × String)) :
    (m.filter (fun kv => decide (kv.1 ∈ present))).lookup c = m.lookup c := by
  induction m with
  | nil => rfl
  | cons kv m ih =>
    obtain ⟨k, w⟩ := kv
    by_cases hk : k ∈ present
    · by_cases he : (c == k) = true
      · simp [List.filter_cons, hk, List.lookup_cons, he]
      · have he' : (c == k) = false := by simpa using he
        simp [List.filter_cons, hk, List.lookup_cons, he', ih]
    · have hne : (c == k) = false := by
        simp only [beq_eq_false_iff_ne]
        intro he
        exact hk (he ▸ hc)
      simp [List.filter_cons, hk, List.lookup_cons, hne, ih]

theorem lookup_none_filter {m : List (String × String)} {c : String}
    (h : m.lookup c = none) (p : String × String → Bool) :
    (m.filter p).lookup c = none := by
  induction m with
  | nil => rfl
  | cons kv m ih =>
    obtain ⟨k, w⟩ := kv
    simp only [List.lookup_cons] at h
    by_cases he : (c == k) = true
    · simp [he] at h
    · have he' : (c == k) = false := by simpa using he
      simp only [he', if_neg] at h
      simp only [List.filter_cons]
      split
      · simp only [List.lookup_cons, he']
        simpa using ih (by simpa [he'] using h)
      · exact ih (by simpa [he'] using h)

theorem lookup_mem_values {m : List (String × String)} {c : String} {v : String}
    (h : m.lookup c = some v) : v ∈ m.map Prod.snd := by
  induction m with
  | nil => simp [List.lookup] at h
  | cons kv m ih =>
    obtain ⟨k, w⟩ := kv
    simp only [List.lookup_cons] at h
    by_cases he : (c == k) = true
    · simp only [he, if_pos] at h
      cases h
      simp
    · have he' : (c == k) = false := by simpa using he
      simp only [he'] at h
      simp only [List.map_cons, List.mem_cons]
      exact Or.inr (ih (by simpa using h))

theorem column_map_values_not_keys :
    ∀ v ∈ column_map.map Prod.snd, column_map.lookup v = none := by decide

/-- Claim C9: the column-rename step is idempotent — renaming a second
time changes nothing, because the rename map matches only exact source
names and no canonical name is a source name. -/
theorem rename_idempotent (df : DF) : renameStep (renameStep df) = renameStep df := by
  have key : ∀ y ∈ df.cols.map (appRen df.cols),
      appRen ((renameStep df).cols) y = y := by
    intro y hy
    obtain ⟨c, hc, rfl⟩ := List.mem_map.1 hy
    simp only [appRen]
    rw [lookup_filter_mem hc column_map]
    cases hlc : column_map.lookup c with
    | none =>
      simp only [hlc, Option.getD_none]
      rw [lookup_none_filter hlc]
      rfl
    | some v =>
      simp only [hlc, Option.getD_some]
      have hv : column_map.lookup v = none :=
        column_map_values_not_keys v (lookup_mem_values hlc)
      rw [lookup_none_filter hv]
      rfl
  show DF.mk (((renameStep df).cols).map (appRen ((renameStep df).cols))) df.rows
      = DF.mk (df.cols.map (appRen df.cols)) df.rows
  congr 1
  show (df.cols.map (appRen df.cols)).map (appRen ((renameStep df).cols))
      = df.cols.map (appRen df.cols)
  rw [List.map_congr_left key]
  simp

/-! Row and column access lemmas for the normalizer. -/

theorem length_coerceRow (pf : String → Option PFloat) :
    ∀ (cols : List String) (r : List Cell), (coerceRow pf cols r).length = r.length := by
  intro cols
  induction cols with
  | nil => intro r; cases r <;> rfl
  | cons c cs ih =>
    intro r
    cases r with
    | nil => rfl
    | cons x xs => simp [coerceRow, ih]

theorem Wf_renameStep (df : DF) (h : Wf df) : Wf (renameStep df) := by
  intro r hr
  simp only [renameStep, List.length_map]
  exact h r hr

theorem Wf_coerceNumeric (pf : String → Option PFloat) (df : DF) (h : Wf df) :
    Wf (coerceNumeric pf df) := by
  intro r hr
  simp only [coerceNumeric] at hr ⊢
  obtain ⟨r0, hr0, rfl⟩ := List.mem_map.1 hr
  rw [length_coerceRow]
  exact h r0 hr0

theorem cellAt_coerceRow (pf : String → Option PFloat) {col : String} (hnc : col ∈ numCols) :
    ∀ (cols : List String) (r : List Cell), col ∈ cols → r.length = cols.length →
      cellAt cols (coerceRow pf cols r) col = toNumCell pf (cellAt cols r col) := by
  intro cols
  induction cols with
  | nil => intro r h; exact absurd h (by simp)
  | cons c cs ih =>
    intro r hm hl
    cases r with
    | nil => simp at hl
    | cons x xs =>
      simp only [coerceRow, cellAt]
      by_cases hc : c = col
      · subst hc
        simp [hnc]
      · rw [if_neg hc, if_neg hc]
        have hm' : col ∈ cs := by
          cases List.mem_cons.1 hm with
          | inl h => exact absurd h.symm hc
          | inr h => exact h
        have hl' : xs.length = cs.length := by simpa using hl
        exact ih xs hm' hl'

/-- Claim C6: for each of the three numeric columns present in the
frame, the coercion step maps every cell with to_numeric semantics — a
string the float parser rejects becomes the missing value NaN (not
zero), a parsable string becomes its numeric value, a missing cell stays
missing, a numeric cell passes through. -/
theorem numeric_coercion (pf : String → Option PFloat) (df : DF) (col : String)
    (h1 : col ∈ numCols) (h2 : col ∈ df.cols) (hwf : Wf df) :
    getColD (coerceNumeric pf df) col = (getColD df col).map (toNumCell pf) ∧
    (∀ s, pf s = none → toNumCell pf (Cell.str s) = Cell.num PFloat.nan ∧
      isna (toNumCell pf (Cell.str s)) = true) ∧
    (∀ s x, pf s = some x → toNumCell pf (Cell.str s) = Cell.num x) ∧
    toNumCell pf Cell.missing = Cell.num PFloat.nan ∧
    (∀ x, toNumCell pf (Cell.num x) = Cell.num x) ∧
    Cell.num PFloat.nan ≠ Cell.num (PFloat.fin 0 0) := by
  refine ⟨?_, ?_, ?_, rfl, fun x => rfl, by simp⟩
  · simp only [coerceNumeric, getColD, List.map_map]
    apply List.map_congr_left
    intro r hr
    exact cellAt_coerceRow pf h1 df.cols r h2 (hwf r hr)
  · intro s hs
    simp [toNumCell, hs, isna]
  · intro s x hs
    simp [toNumCell, hs]

/-- Witness for C6: a frame with a base_msrp column containing the
string N/A and a parsable price. -/
theorem numeric_coercion_witness :
    getColD (coerceNumeric pyFloat (DF.mk ["base_msrp"] [[Cell.str "N/A"], [Cell.str "30000"]]))
        "base_msrp" =
      (getColD (DF.mk ["base_msrp"] [[Cell.str "N/A"], [Cell.str "30000"]]) "base_msrp").map
        (toNumCell pyFloat) ∧
    toNumCell pyFloat (Cell.str "N/A") = Cell.num PFloat.nan := by
  have h := numeric_coercion pyFloat (DF.mk ["base_msrp"] [[Cell.str "N/A"], [Cell.str "30000"]])
    "base_msrp" (by decide) (by decide) (by decide)
  exact ⟨h.1, (h.2.1 "N/A" (by decide)).1⟩

/-! Column assignment lemmas. -/

theorem length_setCellRow :
    ∀ (cols : List String) (r : List Cell) (col : String) (v : Cell),
      (setCellRow cols r col v).length = r.length := by
  intro cols
  induction cols with
  | nil => intro r col v; cases r <;> rfl
  | cons c cs ih =>
    intro r col v
    cases r with
    | nil => rfl
    | cons x xs =>
      simp only [setCellRow]
      split <;> simp [ih]

theorem cellAt_setCellRow_self {col : String} :
    ∀ (cols : List String) (r : List Cell) (v : Cell), col ∈ cols →
      r.length = cols.length → cellAt cols (setCellRow cols r col v) col = v := by
  intro cols
  induction cols with
  | nil => intro r v hm; exact absurd hm (by simp)
  | cons c cs ih =>
    intro r v hm hl
    cases r with
    | nil => simp at hl
    | cons x xs =>
      simp only [setCellRow]
      by_cases hc : c = col
      · rw [if_pos hc]
        simp [cellAt, hc]
      · rw [if_neg hc]
        simp only [cellAt, if_neg hc]
        have hm' : col ∈ cs := by
          cases List.mem_cons.1 hm with
          | inl h => exact absurd h.symm hc
          | inr h => exact h
        exact ih xs v hm' (by simpa using hl)

theorem cellAt_setCellRow_ne {col col' : String} (hne : col' ≠ col) :
    ∀ (cols : List String) (r : List Cell) (v : Cell),
      cellAt cols (setCellRow cols r col' v) col = cellAt cols r col := by
  intro cols
  induction cols with
  | nil => intro r v; cases r <;> rfl
  | cons c cs ih =>
    intro r v
    cases r with
    | nil => rfl
    | cons x xs =>
      simp only [setCellRow]
      by_cases hc : c = col'
      · rw [if_pos hc]
        have : ¬(c = col) := fun h => hne (hc ▸ h ▸ rfl)
        simp [cellAt, this]
      · rw [if_neg hc]
        by_cases hcc : c = col
        · simp [cellAt, hcc]
        · simp only [cellAt, if_neg hcc]
          exact ih xs v

theorem cellAt_appendC_self {col : String} :
    ∀ (cols : List String) (r : List Cell) (v : Cell), col ∉ cols →
      r.length = cols.length → cellAt (cols ++ [col]) (r ++ [v]) col = v := by
  intro cols
  induction cols with
  | nil =>
    intro r v _ hl
    have : r = [] := List.length_eq_zero.1 (by simpa using hl)
    subst this
    simp [cellAt]
  | cons c cs ih =>
    intro r v hm hl
    cases r with
    | nil => simp at hl
    | cons x xs =>
      have hc : c ≠ col := fun h => hm (by simp [h])
      simp only [List.cons_append, cellAt, if_neg hc]
      exact ih xs v (fun h => hm (by simp [h])) (by simpa using hl)

theorem cellAt_appendC_ne {col col' : String} (hne : col ≠ col') :
    ∀ (cols : List String) (r : List Cell) (v : Cell),
      r.length = cols.length → cellAt (cols ++ [col']) (r ++ [v]) col = cellAt cols r col := by
  intro cols
  induction cols with
  | nil =>
    intro r v hl
    have : r = [] := List.length_eq_zero.1 (by simpa using hl)
    subst this
    simp [cellAt, Ne.symm hne]
  | cons c cs ih =>
    intro r v hl
    cases r with
    | nil => simp at hl
    | cons x xs =>
      by_cases hc : c = col
      · simp [cellAt, hc]
      · simp only [List.cons_append, cellAt, if_neg hc]
        exact ih xs v (by simpa using hl)

theorem zipmap_set_self {cols : List String} {col : String} (hm : col ∈ cols) :
    ∀ (rows : List (List Cell)) (vals : List Cell),
      (∀ r ∈ rows, r.length = cols.length) → vals.length = rows.length →
      (rows.zip vals).map (fun p => cellAt cols (setCellRow cols p.1 col p.2) col) = vals := by
  intro rows
  induction rows with
  | nil =>
    intro vals _ hl
    have : vals = [] := List.length_eq_zero.1 (by simpa using hl)
    subst this
    rfl
  | cons r rs ih =>
    intro vals hwf hl
    cases vals with
    | nil => simp at hl
    | cons v vs =>
      simp only [List.zip_cons_cons, List.map_cons]
      rw [cellAt_setCellRow_self cols r v hm (hwf r (by simp))]
      congr 1
      exact ih vs (fun r' hr' => hwf r' (by simp [hr'])) (by simpa using hl)

theorem zipmap_app_self {cols : List String} {col : String} (hm : col ∉ cols) :
    ∀ (rows : List (List Cell)) (vals : List Cell),
      (∀ r ∈ rows, r.length = cols.length) → vals.length = rows.length →
      (rows.zip vals).map (fun p => cellAt (cols ++ [col]) (p.1 ++ [p.2]) col) = vals := by
  intro rows
  induction rows with
  | nil =>
    intro vals _ hl
    have : vals = [] := List.length_eq_zero.1 (by simpa using hl)
    subst this
    rfl
  | cons r rs ih =>
    intro vals hwf hl
    cases vals with
    | nil => simp at hl
    | cons v vs =>
      simp only [List.zip_cons_cons, List.map_cons]
      rw [cellAt_appendC_self cols r v hm (hwf r (by simp))]
      congr 1
      exact ih vs (fun r' hr' => hwf r' (by simp [hr'])) (by simpa using hl)

theorem zipmap_set_ne {cols : List String} {col col' : String} (hne : col' ≠ col) :
    ∀ (rows : List (List Cell)) (vals : List Cell), vals.length = rows.length →
      (rows.zip vals).map (fun p => cellAt cols (setCellRow cols p.1 col' p.2) col)
        = rows.map (fun r => cellAt cols r col) := by
  intro rows
  induction rows with
  | nil => intro vals _; rfl
  | cons r rs ih =>
    intro vals hl
    cases vals with
    | nil => simp at hl
    | cons v vs =>
      simp only [List.zip_cons_cons, List.map_cons]
      rw [cellAt_setCellRow_ne hne cols r v]
      congr 1
      exact ih vs (by simpa using hl)

theorem zipmap_app_ne {cols : List String} {col col' : String} (hne : col ≠ col') :
    ∀ (rows : List (List Cell)) (vals : List Cell),
      (∀ r ∈ rows, r.length = cols.length) → vals.length = rows.length →
      (rows.zip vals).map (fun p => cellAt (cols ++ [col']) (p.1 ++ [p.2]) col)
        = rows.map (fun r => cellAt cols r col) := by
  intro rows
  induction rows with
  | nil => intro vals _ _; rfl
  | cons r rs ih =>
    intro vals hwf hl
    cases vals with
    | nil => simp at hl
    | cons v vs =>
      simp only [List.zip_cons_cons, List.map_cons]
      rw [cellAt_appendC_ne hne cols r v (hwf r (by simp))]
      congr 1
      exact ih vs (fun r' hr' => hwf r' (by simp [hr'])) (by simpa using hl)

theorem getColD_setOrAppend_self (df : DF) (col : String) (vals : List Cell)
    (hwf : Wf df) (hlen : vals.length = df.rows.length) :
    getColD (setOrAppendCol df col vals) col = vals := by
  unfold setOrAppendCol getColD
  by_cases hm : col ∈ df.cols
  · rw [if_pos hm]
    simp only [List.map_map]
    exact zipmap_set_self hm df.rows vals hwf hlen
  · rw [if_neg hm]
    simp only [List.map_map]
    exact zipmap_app_self hm df.rows vals hwf hlen

theorem getColD_setOrAppend_ne (df : DF) (col col' : String) (vals : List Cell)
    (hne : col ≠ col') (hwf : Wf df) (hlen : vals.length = df.rows.length) :
    getColD (setOrAppendCol df col' vals) col = getColD df col := by
  unfold setOrAppendCol getColD
  by_cases hm : col' ∈ df.cols
  · rw [if_pos hm]
    simp only [List.map_map]
    exact zipmap_set_ne (Ne.symm hne) df.rows vals hlen
  · rw [if_neg hm]
    simp only [List.map_map]
    exact zipmap_app_ne hne df.rows vals hwf hlen

theorem Wf_setOrAppendCol (df : DF) (col : String) (vals : List Cell) (hwf : Wf df) :
    Wf (setOrAppendCol df col vals) := by
  unfold setOrAppendCol
  by_cases hm : col ∈ df.cols
  · rw [if_pos hm]
    intro r hr
    obtain ⟨⟨r0, v0⟩, hp, rfl⟩ := List.mem_map.1 hr
    simp only [length_setCellRow]
    exact hwf r0 (List.of_mem_zip hp).1
  · rw [if_neg hm]
    intro r hr
    obtain ⟨⟨r0, v0⟩, hp, rfl⟩ := List.mem_map.1 hr
    simp only [List.length_append, List.length_singleton]
    rw [hwf r0 (List.of_mem_zip hp).1]

theorem rows_setOrAppendCol_length (df : DF) (col : String) (vals : List Cell)
    (hlen : vals.length = df.rows.length) :
    (setOrAppendCol df col vals).rows.length = df.rows.length := by
  unfold setOrAppendCol
  split <;> simp [List.length_zip, hlen]

theorem getColD_addCoords (pf : String → Option PFloat) (df : DF) (hwf : Wf df)
    (hg : "geocoded_column" ∈ df.cols) :
    getColD (addCoords pf df) "longitude" =
      ((getColD df "geocoded_column").map (parse_point pf)).map (fun p => Cell.num p.1) ∧
    getColD (addCoords pf df) "latitude" =
      ((getColD df "geocoded_column").map (parse_point pf)).map (fun p => Cell.num p.2) := by
  unfold addCoords
  rw [if_pos hg]
  have hclen : (((getColD df "geocoded_column").map (parse_point pf)).map
      (fun p => Cell.num p.1)).length = df.rows.length := by
    simp [getColD]
  have hclen2 : (((getColD df "geocoded_column").map (parse_point pf)).map
      (fun p => Cell.num p.2)).length
      = (setOrAppendCol df "longitude"
          (((getColD df "geocoded_column").map (parse_point pf)).map
            (fun p => Cell.num p.1))).rows.length := by
    rw [rows_setOrAppendCol_length df _ _ hclen]
    simp [getColD]
  constructor
  · rw [getColD_setOrAppend_ne _ "longitude" "latitude" _ (by decide)
      (Wf_setOrAppendCol df _ _ hwf) hclen2]
    exact getColD_setOrAppend_self df "longitude" _ hwf hclen
  · exact getColD_setOrAppend_self _ "latitude" _ (Wf_setOrAppendCol df _ _ hwf) hclen2

theorem isna_num (x : PFloat) : isna (Cell.num x) = decide (x = PFloat.nan) := by
  cases x <;> simp [isna]

theorem parse_point_nan_pair (pf : String → Option PFloat)
    (hpf : ∀ s, pf s ≠ some PFloat.nan) (v : Cell) :
    isna (Cell.num (parse_point pf v).1) = isna (Cell.num (parse_point pf v).2) := by
  cases v with
  | missing => rfl
  | num x => rfl
  | str s =>
    simp only [parse_point]
    split
    · split
      · next a b heq =>
        split
        · next x y hpa hpb =>
          have hx : x ≠ PFloat.nan := by
            intro h
            exact hpf (String.mk a) (h ▸ hpa)
          have hy : y ≠ PFloat.nan := by
            intro h
            exact hpf (String.mk b) (h ▸ hpb)
          simp [isna_num, hx, hy]
        · rfl
      · rfl
    · rfl

/-- Counterexample to claim C4: geocoded text whose longitude token is
the float literal nan decodes to a missing longitude next to a present
latitude, so the two derived columns are not jointly present or jointly
missing in the normalized frame. -/
theorem lon_lat_not_paired :
    coordsPaired (normalize pyFloat
      (DF.mk ["geocoded_column"] [[Cell.str "POINT (nan 5)"]])) = false := by
  decide

/-- Claim C4 as amended: provided the float parser never yields a NaN
value for a token (no nan literals in the geometry text), the derived
longitude and latitude cells of the normalized frame are jointly present
or jointly missing in every row. -/
theorem lon_lat_paired (pf : String → Option PFloat) (df : DF)
    (hpf : ∀ s, pf s ≠ some PFloat.nan) (hwf : Wf df)
    (hg : "geocoded_column" ∈ (renameStep df).cols) :
    coordsPaired (normalize pf df) = true := by
  have hwf2 : Wf (coerceNumeric pf (renameStep df)) :=
    Wf_coerceNumeric pf _ (Wf_renameStep df hwf)
  have hg2 : "geocoded_column" ∈ (coerceNumeric pf (renameStep df)).cols := hg
  obtain ⟨hlon, hlat⟩ := getColD_addCoords pf _ hwf2 hg2
  unfold normalize coordsPaired
  rw [hlon, hlat, List.zip_map']
  rw [List.all_eq_true]
  intro c hc
  obtain ⟨p, hp, rfl⟩ := List.mem_map.1 hc
  obtain ⟨v, hv, rfl⟩ := List.mem_map.1 hp
  rw [beq_iff_eq]
  exact parse_point_nan_pair pf hpf v

/-- Witness for the amended C4 on a concrete frame and parser. -/
theorem lon_lat_paired_witness :
    coordsPaired (normalize (fun s => if s = "5" then some (PFloat.fin 5 0) else none)
      (DF.mk ["geocoded_column"] [[Cell.str "POINT (5 5)"], [Cell.missing]])) = true := by
  have h := lon_lat_paired (fun s => if s = "5" then some (PFloat.fin 5 0) else none)
    (DF.mk ["geocoded_column"] [[Cell.str "POINT (5 5)"], [Cell.missing]])
    (by intro s; dsimp only; split <;> simp) (by decide) (by decide)
  exact h

/-! Value counts and sampling lemmas. -/

theorem valueCounts_append_na {c : Cell} (hc : isna c = true) (l : List Cell) :
    valueCounts (l ++ [c]) = valueCounts l := by
  unfold valueCounts
  rw [List.filter_append]
  simp [hc]

theorem getColD_appendRow (df : DF) (r : List Cell) (col : String) :
    getColD (appendRow df r) col = getColD df col ++ [cellAt df.cols r col] := by
  simp [getColD, appendRow]

/-- Claim C10: appending a row whose counted cell is missing leaves each
value-count-based working set (type share, top cities, top counties,
yearly trend) unchanged — the row contributes to no category and no
count. -/
theorem missing_rows_not_counted :
    (∀ (df : DF) (r : List Cell), isna (cellAt df.cols r "ev_type") = true →
      ev_type_counts (appendRow df r) = ev_type_counts df) ∧
    (∀ (df : DF) (r : List Cell), isna (cellAt df.cols r "city") = true →
      top_cities_counts (appendRow df r) = top_cities_counts df) ∧
    (∀ (df : DF) (r : List Cell), isna (cellAt df.cols r "county") = true →
      top_counties_counts (appendRow df r) = top_counties_counts df) ∧
    (∀ (df : DF) (r : List Cell), isna (cellAt df.cols r "model_year") = true →
      year_trend_data (appendRow df r) = year_trend_data df) := by
  refine ⟨?_, ?_, ?_, ?_⟩
  · intro df r h
    unfold ev_type_counts
    rw [getColD_appendRow, valueCounts_append_na h]
  · intro df r h
    unfold top_cities_counts
    rw [getColD_appendRow, valueCounts_append_na h]
  · intro df r h
    unfold top_counties_counts
    rw [getColD_appendRow, valueCounts_append_na h]
  · intro df r h
    unfold year_trend_data
    rw [getColD_appendRow, valueCounts_append_na h]

/-- Witness for C10 on concrete frames, one per counting builder. -/
theorem missing_rows_not_counted_witness :
    ev_type_counts (appendRow (DF.mk ["ev_type"] [[Cell.str "BEV"]]) [Cell.missing]) =
      ev_type_counts (DF.mk ["ev_type"] [[Cell.str "BEV"]]) ∧
    top_cities_counts (appendRow (DF.mk ["city"] [[Cell.str "Seattle"]]) [Cell.missing]) =
      top_cities_counts (DF.mk ["city"] [[Cell.str "Seattle"]]) ∧
    top_counties_counts (appendRow (DF.mk ["county"] [[Cell.str "King"]]) [Cell.missing]) =
      top_counties_counts (DF.mk ["county"] [[Cell.str "King"]]) ∧
    year_trend_data (appendRow (DF.mk ["model_year"] [[Cell.num (PFloat.fin 2020 0)]])
        [Cell.num PFloat.nan]) =
      year_trend_data (DF.mk ["model_year"] [[Cell.num (PFloat.fin 2020 0)]]) :=
  ⟨missing_rows_not_counted.1 _ _ (by decide),
   missing_rows_not_counted.2.1 _ _ (by decide),
   missing_rows_not_counted.2.2.1 _ _ (by decide),
   missing_rows_not_counted.2.2.2 _ _ (by decide)⟩

theorem length_sampleTake :
    ∀ (n s : ℕ) (l : List (List Cell)), (sampleTake s n l).length = min n l.length := by
  intro n
  induction n with
  | zero => intro s l; simp [sampleTake]
  | succ k ih =>
    intro s l
    cases l with
    | nil => simp [sampleTake]
    | cons x xs =>
      simp only [sampleTake, List.length_cons]
      rw [ih, List.length_eraseIdx]
      simp only [List.length_cons]
      have hlt : s % (xs.length + 1) < xs.length + 1 := Nat.mod_lt _ (by omega)
      split
      · omega
      · omega

theorem filter_replicate_pos {α : Type} (p : α → Bool) (a : α) (h : p a = true) :
    ∀ n : ℕ, (List.replicate n a).filter p = List.replicate n a := by
  intro n
  induction n with
  | zero => rfl
  | succ k ih => simp [List.replicate_succ, List.filter_cons, h, ih]

/-- Claim C8: when more than 5000 rows have both coordinates present,
the map builder charts a sample of exactly 5000 working rows; sampling
is a pure function of the fixed seed 42 and the working rows, hence
deterministic across runs on equal input. -/
theorem map_sampling (df : DF)
    (h1 : "longitude" ∈ df.cols) (h2 : "latitude" ∈ df.cols)
    (h3 : 5000 < (map_working df).rows.length)
    (h4 : ∀ c ∈ hoverCols, c ∈ df.cols) :
    (map_sample df).length = 5000 ∧
    plot_ev_map df = Except.ok [Out.txt map_heading, Out.txt map_caption,
      Out.chartMap (map_sample df)] := by
  constructor
  · rw [map_sample, length_sampleTake]
    omega
  · have hne : (map_working df).rows ≠ [] := by
      intro h
      rw [h] at h3
      simp at h3
    rw [plot_ev_map, if_pos ⟨h1, h2⟩, if_pos hne, if_pos h4]

/-- Witness for C8 on a frame with 6000 valid coordinate rows (the
hover columns are present, so the chart is actually produced). -/
theorem map_sampling_witness :
    (map_sample (DF.mk ["longitude", "latitude", "make", "model", "model_year", "county"]
      (List.replicate 6000 [Cell.num (PFloat.fin 1 0), Cell.num (PFloat.fin 2 0),
        Cell.str "Tesla", Cell.str "Model 3", Cell.num (PFloat.fin 2020 0),
        Cell.str "King"]))).length = 5000 := by
  have hrows : (map_working (DF.mk
      ["longitude", "latitude", "make", "model", "model_year", "county"]
      (List.replicate 6000 [Cell.num (PFloat.fin 1 0), Cell.num (PFloat.fin 2 0),
        Cell.str "Tesla", Cell.str "Model 3", Cell.num (PFloat.fin 2020 0),
        Cell.str "King"]))).rows
      = List.replicate 6000 [Cell.num (PFloat.fin 1 0), Cell.num (PFloat.fin 2 0),
        Cell.str "Tesla", Cell.str "Model 3", Cell.num (PFloat.fin 2020 0),
        Cell.str "King"] := by
    unfold map_working dropna
    dsimp only
    exact filter_replicate_pos _ _ (by decide) 6000
  exact (map_sampling _ (by decide) (by decide)
    (by rw [hrows, List.length_replicate]; omega) (by decide)).1

theorem length_insertOrd {α : Type} (r : α → α → Bool) (x : α) :
    ∀ l : List α, (insertOrd r x l).length = l.length + 1 := by
  intro l
  induction l with
  | nil => rfl
  | cons y ys ih =>
    simp only [insertOrd]
    split
    · rfl
    · simp [ih]

theorem length_sortOrd {α : Type} (r : α → α → Bool) :
    ∀ l : List α, (sortOrd r l).length = l.length := by
  intro l
  induction l with
  | nil => rfl
  | cons x xs ih => simp [sortOrd, length_insertOrd, ih]

/-! Builder fallback theorems. -/

/-- Counterexample to claim C5: with base_msrp and ev_type present but an
empty working set after dropping missing values, the price-by-type
builder emits its heading and caption before the fixed no-data message,
so it does not return before the render of the heading. -/
theorem msrp_empty_still_emits_heading :
    plot_msrp_by_ev_type (DF.mk ["base_msrp", "ev_type"] [[Cell.num PFloat.nan, Cell.missing]])
      = Except.ok [Out.txt msrp_heading, Out.txt msrp_caption,
        Out.txt "No MSRP data available for BEV or PHEV vehicles."] ∧
    Out.txt msrp_heading ∈ [Out.txt msrp_heading, Out.txt msrp_caption,
        Out.txt "No MSRP data available for BEV or PHEV vehicles."] ∧
    msrp_heading ≠ "No MSRP data available for BEV or PHEV vehicles." := by
  refine ⟨by decide, by decide, by decide⟩

/-- Claim C5 as amended: with required columns present and an empty
working set, every builder emits the fixed no-data message and no chart;
the map, top-makes/models, type-share, top-cities and top-counties
builders emit nothing else, while the range-distribution, price-by-type
and yearly-trend builders emit their heading and caption first. -/
theorem empty_working_set_fallback :
    (∀ df : DF, ("longitude" ∈ df.cols ∧ "latitude" ∈ df.cols) →
      (map_working df).rows = [] → plot_ev_map df =
        Except.ok [Out.txt "No valid geolocation data available for mapping EV registrations."]) ∧
    (∀ df : DF, ("make" ∈ df.cols ∧ "model" ∈ df.cols) → top_models_data df = [] →
      plot_top_makes_models df =
        Except.ok [Out.txt "No data available for top makes and models."]) ∧
    (∀ df : DF, "ev_type" ∈ df.cols → ev_type_counts df = [] →
      plot_bev_phev_share df = Except.ok [Out.txt "No data available for BEV vs PHEV share."]) ∧
    (∀ df : DF, "electric_range" ∈ df.cols → (dropna df ["electric_range"]).rows = [] →
      plot_electric_range_distribution df = Except.ok [Out.txt range_heading,
        Out.txt range_caption, Out.txt "No data available for electric range distribution."]) ∧
    (∀ df : DF, "city" ∈ df.cols → top_cities_counts df = [] →
      plot_top_cities df = Except.ok [Out.txt "No data available for top cities."]) ∧
    (∀ df : DF, "county" ∈ df.cols → top_counties_counts df = [] →
      plot_top_counties df = Except.ok [Out.txt "No data available for top counties."]) ∧
    (∀ df : DF, ("base_msrp" ∈ df.cols ∧ "ev_type" ∈ df.cols) →
      (dropna df ["base_msrp", "ev_type"]).rows = [] →
      plot_msrp_by_ev_type df = Except.ok [Out.txt msrp_heading, Out.txt msrp_caption,
        Out.txt "No MSRP data available for BEV or PHEV vehicles."]) ∧
    (∀ df : DF, "model_year" ∈ df.cols → year_trend_data df = [] →
      plot_yearly_trend df = Except.ok [Out.txt yearly_heading, Out.txt yearly_caption,
        Out.txt "No registration data available by model year."]) := by
  refine ⟨?_, ?_, ?_, ?_, ?_, ?_, ?_, ?_⟩
  · intro df h1 h2
    unfold plot_ev_map
    rw [if_pos h1, if_neg (fun hne => hne h2)]
  · intro df h1 h2
    unfold plot_top_makes_models
    rw [if_pos h1, if_neg (fun hne => hne h2)]
  · intro df h1 h2
    unfold plot_bev_phev_share
    rw [if_pos h1, if_neg (fun hne => hne h2)]
  · intro df h1 h2
    unfold plot_electric_range_distribution
    rw [if_pos h1, if_neg (fun hne => hne h2)]
    rfl
  · intro df h1 h2
    unfold plot_top_cities
    rw [if_pos h1, if_neg (fun hne => hne h2)]
  · intro df h1 h2
    unfold plot_top_counties
    rw [if_pos h1, if_neg (fun hne => hne h2)]
  · intro df h1 h2
    unfold plot_msrp_by_ev_type
    rw [if_pos h1, if_neg (fun hne => hne h2)]
    rfl
  · intro df h1 h2
    have hvc : valueCounts (getColD df "model_year") = [] := by
      have hlen : (year_trend_data df).length = 0 := by rw [h2]; rfl
      rw [year_trend_data, length_sortOrd] at hlen
      exact List.length_eq_zero.1 hlen
    unfold plot_yearly_trend
    rw [if_pos h1, if_pos (by rw [hvc]; rfl), if_neg (fun hne => hne h2)]
    rfl

/-- Witness for the amended C5 on concrete frames, one per builder. -/
theorem empty_working_set_fallback_witness :
    plot_ev_map (DF.mk ["longitude", "latitude"] [[Cell.missing, Cell.missing]]) =
      Except.ok [Out.txt "No valid geolocation data available for mapping EV registrations."] ∧
    plot_top_makes_models (DF.mk ["make", "model"] []) =
      Except.ok [Out.txt "No data available for top makes and models."] ∧
    plot_bev_phev_share (DF.mk ["ev_type"] [[Cell.missing]]) =
      Except.ok [Out.txt "No data available for BEV vs PHEV share."] ∧
    plot_electric_range_distribution (DF.mk ["electric_range"] [[Cell.missing]]) =
      Except.ok [Out.txt range_heading, Out.txt range_caption,
        Out.txt "No data available for electric range distribution."] ∧
    plot_top_cities (DF.mk ["city"] [[Cell.missing]]) =
      Except.ok [Out.txt "No data available for top cities."] ∧
    plot_top_counties (DF.mk ["county"] [[Cell.missing]]) =
      Except.ok [Out.txt "No data available for top counties."] ∧
    plot_msrp_by_ev_type (DF.mk ["base_msrp", "ev_type"] [[Cell.num PFloat.nan, Cell.str "BEV"]]) =
      Except.ok [Out.txt msrp_heading, Out.txt msrp_caption,
        Out.txt "No MSRP data available for BEV or PHEV vehicles."] ∧
    plot_yearly_trend (DF.mk ["model_year"] [[Cell.missing]]) =
      Except.ok [Out.txt yearly_heading, Out.txt yearly_caption,
        Out.txt "No registration data available by model year."] :=
  ⟨empty_working_set_fallback.1 _ (by decide) (by decide),
   empty_working_set_fallback.2.1 _ (by decide) (by decide),
   empty_working_set_fallback.2.2.1 _ (by decide) (by decide),
   empty_working_set_fallback.2.2.2.1 _ (by decide) (by decide),
   empty_working_set_fallback.2.2.2.2.1 _ (by decide) (by decide),
   empty_working_set_fallback.2.2.2.2.2.1 _ (by decide) (by decide),
   empty_working_set_fallback.2.2.2.2.2.2.1 _ (by decide) (by decide),
   empty_working_set_fallback.2.2.2.2.2.2.2 _ (by decide) (by decide)⟩

/-- Counterexample to claim C1: the top-makes/models builder performs no
column-existence guard — on a frame lacking the make and model columns
the groupby raises (modelled as an error result) instead of emitting a
data-not-available text message. -/
theorem top_makes_models_missing_column_raises :
    plot_top_makes_models (DF.mk [] []) = Except.error "KeyError" := by
  decide

/-- Claim C1 as amended: every builder with a column-existence guard
emits only a fixed not-available text message and no chart when its
required canonical columns are absent; the type-share, range,
top-cities, top-counties and price-by-type builders never raise. The
remaining builders can raise: top-makes/models has no guard and raises
a KeyError when make or model is absent; the map builder, with
coordinates present and a non-empty working set, raises a ValueError
when any hover column (make, model, model_year, county) is absent; the
yearly-trend builder raises a TypeError when the distinct model_year
values mix strings and numbers. -/
theorem builders_column_guard :
    (∀ df : DF, ¬("longitude" ∈ df.cols ∧ "latitude" ∈ df.cols) →
      plot_ev_map df = Except.ok [Out.txt "Geocoded location data not available for mapping."]) ∧
    (∀ df : DF, ("longitude" ∈ df.cols ∧ "latitude" ∈ df.cols) →
      (map_working df).rows ≠ [] → ¬(∀ c ∈ hoverCols, c ∈ df.cols) →
      plot_ev_map df = Except.error "ValueError") ∧
    (∀ df : DF, ¬("ev_type" ∈ df.cols) →
      plot_bev_phev_share df = Except.ok [Out.txt "EV type data not available."]) ∧
    (∀ df : DF, okB (plot_bev_phev_share df) = true) ∧
    (∀ df : DF, ¬("electric_range" ∈ df.cols) →
      plot_electric_range_distribution df =
        Except.ok [Out.txt "Electric range data not available."]) ∧
    (∀ df : DF, okB (plot_electric_range_distribution df) = true) ∧
    (∀ df : DF, ¬("city" ∈ df.cols) →
      plot_top_cities df = Except.ok [Out.txt "City data not available."]) ∧
    (∀ df : DF, okB (plot_top_cities df) = true) ∧
    (∀ df : DF, ¬("county" ∈ df.cols) →
      plot_top_counties df = Except.ok [Out.txt "County data not available."]) ∧
    (∀ df : DF, okB (plot_top_counties df) = true) ∧
    (∀ df : DF, ¬("base_msrp" ∈ df.cols ∧ "ev_type" ∈ df.cols) →
      plot_msrp_by_ev_type df = Except.ok [Out.txt "MSRP or EV type data not available."]) ∧
    (∀ df : DF, okB (plot_msrp_by_ev_type df) = true) ∧
    (∀ df : DF, ¬("model_year" ∈ df.cols) →
      plot_yearly_trend df = Except.ok [Out.txt "Model year data not available."]) ∧
    (∀ df : DF, "model_year" ∈ df.cols →
      sortableKeys (valueCounts (getColD df "model_year")) = false →
      plot_yearly_trend df = Except.error "TypeError") := by
  refine ⟨?_, ?_, ?_, ?_, ?_, ?_, ?_, ?_, ?_, ?_, ?_, ?_, ?_, ?_⟩
  · intro df h
    unfold plot_ev_map
    rw [if_neg h]
  · intro df h1 h2 h3
    unfold plot_ev_map
    rw [if_pos h1, if_pos h2, if_neg h3]
  · intro df h
    unfold plot_bev_phev_share
    rw [if_neg h]
  · intro df
    unfold plot_bev_phev_share
    split
    · split <;> rfl
    · rfl
  · intro df h
    unfold plot_electric_range_distribution
    rw [if_neg h]
  · intro df
    unfold plot_electric_range_distribution
    split <;> rfl
  · intro df h
    unfold plot_top_cities
    rw [if_neg h]
  · intro df
    unfold plot_top_cities
    split
    · split <;> rfl
    · rfl
  · intro df h
    unfold plot_top_counties
    rw [if_neg h]
  · intro df
    unfold plot_top_counties
    split
    · split <;> rfl
    · rfl
  · intro df h
    unfold plot_msrp_by_ev_type
    rw [if_neg h]
  · intro df
    unfold plot_msrp_by_ev_type
    split <;> rfl
  · intro df h
    unfold plot_yearly_trend
    rw [if_neg h]
  · intro df h1 h2
    unfold plot_yearly_trend
    rw [if_pos h1, if_neg (by simp [h2])]

/-- Witness for the amended C1: guard messages on an empty frame, a
ValueError from the map builder when the hover columns are absent, and
a TypeError from the yearly builder on mixed-type model_year values. -/
theorem builders_column_guard_witness :
    plot_ev_map (DF.mk [] []) =
      Except.ok [Out.txt "Geocoded location data not available for mapping."] ∧
    plot_ev_map (DF.mk ["longitude", "latitude"]
        [[Cell.num (PFloat.fin 1 0), Cell.num (PFloat.fin 2 0)]]) =
      Except.error "ValueError" ∧
    plot_bev_phev_share (DF.mk [] []) = Except.ok [Out.txt "EV type data not available."] ∧
    plot_electric_range_distribution (DF.mk [] []) =
      Except.ok [Out.txt "Electric range data not available."] ∧
    plot_top_cities (DF.mk [] []) = Except.ok [Out.txt "City data not available."] ∧
    plot_top_counties (DF.mk [] []) = Except.ok [Out.txt "County data not available."] ∧
    plot_msrp_by_ev_type (DF.mk [] []) =
      Except.ok [Out.txt "MSRP or EV type data not available."] ∧
    plot_yearly_trend (DF.mk [] []) = Except.ok [Out.txt "Model year data not available."] ∧
    plot_yearly_trend (DF.mk ["model_year"]
        [[Cell.str "2020"], [Cell.num (PFloat.fin 2021 0)]]) = Except.error "TypeError" :=
  ⟨builders_column_guard.1 _ (by decide),
   builders_column_guard.2.1 _ (by decide) (by decide) (by decide),
   builders_column_guard.2.2.1 _ (by decide),
   builders_column_guard.2.2.2.2.1 _ (by decide),
   builders_column_guard.2.2.2.2.2.2.1 _ (by decide),
   builders_column_guard.2.2.2.2.2.2.2.2.1 _ (by decide),
   builders_column_guard.2.2.2.2.2.2.2.2.2.2.1 _ (by decide),
   builders_column_guard.2.2.2.2.2.2.2.2.2.2.2.2.1 _ (by decide),
   builders_column_guard.2.2.2.2.2.2.2.2.2.2.2.2.2 _ (by decide) (by decide)⟩

/-! Sortedness of the top-N rankings. -/

theorem chain'_insertOrd {α : Type} (r : α → α → Bool)
    (htot : ∀ a b, r a b = true ∨ r b a = true) (x : α) :
    ∀ l, List.Chain' (fun a b => r a b = true) l →
      List.Chain' (fun a b => r a b = true) (insertOrd r x l) := by
  intro l
  induction l with
  | nil => intro _; simp [insertOrd]
  | cons y ys ih =>
    intro hch
    simp only [insertOrd]
    by_cases hxy : r x y = true
    · rw [if_pos hxy]
      exact List.chain'_cons.2 ⟨hxy, hch⟩
    · rw [if_neg hxy]
      have hyx : r y x = true := (htot x y).resolve_left hxy
      cases ys with
      | nil =>
        simp only [insertOrd]
        exact List.chain'_cons.2 ⟨hyx, List.chain'_singleton x⟩
      | cons z zs =>
        have hch' : List.Chain' (fun a b => r a b = true) (z :: zs) :=
          (List.chain'_cons.1 hch).2
        have hyz : r y z = true := (List.chain'_cons.1 hch).1
        by_cases hxz : r x z = true
        · simp only [insertOrd, if_pos hxz]
          exact List.chain'_cons.2 ⟨hyx, List.chain'_cons.2 ⟨hxz, hch'⟩⟩
        · simp only [insertOrd, if_neg hxz]
          have hins := ih hch'
          simp only [insertOrd, if_neg hxz] at hins
          exact List.chain'_cons.2 ⟨hyz, hins⟩

theorem chain'_sortOrd {α : Type} (r : α → α → Bool)
    (htot : ∀ a b, r a b = true ∨ r b a = true) (l : List α) :
    List.Chain' (fun a b => r a b = true) (sortOrd r l) := by
  induction l with
  | nil => simp [sortOrd]
  | cons x xs ih => exact chain'_insertOrd r htot x _ ih

theorem chain'_take {α : Type} {R : α → α → Prop} :
    ∀ (l : List α) (n : ℕ), List.Chain' R l → List.Chain' R (l.take n) := by
  intro l
  induction l with
  | nil => intro n _; simp
  | cons x xs ih =>
    intro n hch
    cases n with
    | zero => simp
    | succ k =>
      rw [List.take_succ_cons]
      cases xs with
      | nil => simp
      | cons y ys =>
        cases k with
        | zero => simp
        | succ m =>
          have h1 := (List.chain'_cons.1 hch).1
          have h2 := (List.chain'_cons.1 hch).2
          have h3 := ih (m + 1) h2
          rw [List.take_succ_cons] at h3
          rw [List.take_succ_cons]
          exact List.chain'_cons.2 ⟨h1, h3⟩

theorem cntDesc_total {α : Type} : ∀ a b : α × ℕ, cntDesc a b = true ∨ cntDesc b a = true := by
  intro a b
  simp only [cntDesc, decide_eq_true_eq]
  omega

theorem chain'_valueCounts (l : List Cell) :
    List.Chain' (fun a b : Cell × ℕ => b.2 ≤ a.2) (valueCounts l) := by
  unfold valueCounts
  refine (chain'_sortOrd cntDesc cntDesc_total _).imp ?_
  intro a b hab
  simpa [cntDesc] using hab

/-- Counterexample to claim C7: two cities with equal counts — the
charted top-cities working set is not sorted by strictly descending
count, since the two counts are equal. -/
theorem top_cities_tie_not_strictly_descending :
    top_cities_data
        (DF.mk ["city"] [[Cell.str "A"], [Cell.str "A"], [Cell.str "B"], [Cell.str "B"]])
      = [(Cell.str "A", 2), (Cell.str "B", 2)] ∧
    ¬ List.Chain' (fun a b : Cell × ℕ => b.2 < a.2)
      [(Cell.str "A", 2), (Cell.str "B", 2)] := by
  constructor
  · decide
  · intro h
    exact absurd (List.chain'_cons.1 h).1 (by omega)

/-- Claim C7 as amended: each top-N builder charts at most 15 categories
ordered by non-increasing (descending with ties) count; the top-cities
and top-counties charted sets have exactly min 15 (number of distinct
non-missing categories) rows and are what the builder hands to its
chart. -/
theorem topn_limit_and_order (df : DF) :
    ((top_cities_data df).length = min 15 (top_cities_counts df).length ∧
      List.Chain' (fun a b : Cell × ℕ => b.2 ≤ a.2) (top_cities_data df) ∧
      ("city" ∈ df.cols → top_cities_counts df ≠ [] →
        plot_top_cities df = Except.ok [Out.txt cities_heading, Out.txt cities_caption,
          Out.chartBar (top_cities_data df)])) ∧
    ((top_counties_data df).length = min 15 (top_counties_counts df).length ∧
      List.Chain' (fun a b : Cell × ℕ => b.2 ≤ a.2) (top_counties_data df) ∧
      ("county" ∈ df.cols → top_counties_counts df ≠ [] →
        plot_top_counties df = Except.ok [Out.txt counties_heading, Out.txt counties_caption,
          Out.chartBar (top_counties_data df)])) ∧
    ((top_models_data df).length ≤ 15 ∧
      List.Chain' (fun a b : (Cell × Cell) × ℕ => b.2 ≤ a.2) (top_models_data df)) := by
  refine ⟨⟨?_, ?_, ?_⟩, ⟨?_, ?_, ?_⟩, ?_, ?_⟩
  · simp [top_cities_data, List.length_take]
  · exact chain'_take _ 15 (chain'_valueCounts _)
  · intro h1 h2
    unfold plot_top_cities
    rw [if_pos h1, if_pos h2]
  · simp [top_counties_data, List.length_take]
  · exact chain'_take _ 15 (chain'_valueCounts _)
  · intro h1 h2
    unfold plot_top_counties
    rw [if_pos h1, if_pos h2]
  · simp only [top_models_data]
    rw [List.length_take]
    omega
  · unfold top_models_data
    refine chain'_take _ 15 ?_
    refine (chain'_sortOrd cntDesc cntDesc_total _).imp ?_
    intro a b hab
    simpa [cntDesc] using hab

/-- Witness for the amended C7 on a frame with 30 distinct cities: the
charted set has exactly 15 rows (min 15 30). -/
theorem topn_limit_and_order_witness :
    (top_cities_data (DF.mk ["city"]
        ((List.range 30).map (fun i => [Cell.num (PFloat.fin i 0)])))).length
      = min 15 (top_cities_counts (DF.mk ["city"]
        ((List.range 30).map (fun i => [Cell.num (PFloat.fin i 0)])))).length ∧
    (top_cities_counts (DF.mk ["city"]
        ((List.range 30).map (fun i => [Cell.num (PFloat.fin i 0)])))).length = 30 ∧
    plot_top_cities (DF.mk ["city"] ((List.range 30).map (fun i => [Cell.num (PFloat.fin i 0)])))
      = Except.ok [Out.txt cities_heading, Out.txt cities_caption,
        Out.chartBar (top_cities_data (DF.mk ["city"]
          ((List.range 30).map (fun i => [Cell.num (PFloat.fin i 0)]))))] ∧
    List.Chain' (fun a b : Cell × ℕ => b.2 ≤ a.2)
      (top_cities_data (DF.mk ["city"] ((List.range 30).map
        (fun i => [Cell.num (PFloat.fin i 0)])))) :=
  ⟨(topn_limit_and_order _).1.1, by decide,
   (topn_limit_and_order _).1.2.2 (by decide) (by decide),
   (topn_limit_and_order _).1.2.1⟩

end EVReport
